import Mathlib

/-!
Verification of the A3D resource-cache lifecycle and render-dispatch pipeline.

This file gives a shallow embedding of the cache/renderer core of the A3D
engine (per-resource per-renderer cache maps, dirty tracking, the
build-or-fetch operations of RendererOGL, the GL state stack, draw dispatch,
the OIT composite shader and the context-switching deletion paths) and proves
or refutes the frozen specification claims about it.
-/

namespace A3D

/-- Log severities, mirroring `enum LogChannel` in common.h
(LC_Debug, LC_Info, LC_Warning, LC_Critical). -/
inductive LogChannel
  | LC_Debug
  | LC_Info
  | LC_Warning
  | LC_Critical
deriving DecidableEq, Repr

/-- Value of std::numeric_limits<std::uintptr_t>::max() on a 64-bit build;
used by every resource as the "invalidate all renderers" rendererID. -/
def UINTPTR_MAX : Nat := 2 ^ 64 - 1

/-! ## Generic cache slot (Mesh::getOrEmplaceMeshCache /
MaterialProperties::getOrEmplaceMaterialPropertiesCache)

Both templates have the same body: look up the rendererID in the per-resource
map of QPointer entries; a missing entry or a nulled QPointer leads to
construction of a new cache of the requested concrete type; a live entry is
narrowed with qobject_cast to the requested concrete type and a failed
narrowing throws std::runtime_error. Concrete cache types are modelled as
Nat tags, cache object identities as Nat pointers. -/

/-- One stored entry of a per-resource cache map: `dead` models a QPointer
whose object has been destroyed (isNull), `live kind ptr` a QPointer to a
living cache object of concrete type `kind` at address `ptr`. -/
inductive SlotEntry
  | dead
  | live (kind : Nat) (ptr : Nat)
deriving DecidableEq, Repr

/-- State touched by the get-or-emplace template: the per-resource map from
rendererID to entry (none = no map entry) and a fresh-address counter
standing for the allocator. -/
structure CacheMapState where
  entries : Nat → Option SlotEntry
  nextPtr : Nat

/-- Message of the std::runtime_error thrown on a rendererID collision
(mesh.h line 181 / materialproperties.h line 114). -/
def collisionMsg : String := "Possibly conflicting rendererID."

/-- Model of the getOrEmplace cache-slot template (mesh.h lines 170-184,
materialproperties.h lines 103-117) requesting concrete type `T` for
`rendererID`. Returns the thrown error or the (pointer, created) pair,
together with the resulting map state. -/
def getOrEmplaceCache (T rendererID : Nat) (s : CacheMapState) :
    Except String (Nat × Bool) × CacheMapState :=
  match s.entries rendererID with
  | none | some SlotEntry.dead =>
      (Except.ok (s.nextPtr, true),
       { entries := fun r =>
           if r = rendererID then some (SlotEntry.live T s.nextPtr) else s.entries r,
         nextPtr := s.nextPtr + 1 })
  | some (SlotEntry.live A p) =>
      if A = T then (Except.ok (p, false), s)
      else (Except.error collisionMsg, s)

/-! ## Texture resource and TextureCacheOGL (texture.cpp, part_017) -/

/-- Texture wrap modes (Texture::WrapMode). -/
inductive WrapMode
  | Repeat
  | MirroredRepeat
  | Clamp
deriving DecidableEq, Repr

/-- Texture filters (Texture::Filter). -/
inductive TexFilter
  | Nearest
  | Linear
  | NearestMipMapNearest
  | NearestMipMapLinear
  | LinearMipMapNearest
  | LinearMipMapLinear
deriving DecidableEq, Repr

/-- QOpenGLTexture wrap modes. -/
inductive GLWrapMode
  | Repeat
  | MirroredRepeat
  | ClampToEdge
deriving DecidableEq, Repr

/-- QOpenGLTexture filters. -/
inductive GLFilter
  | Nearest
  | Linear
  | NearestMipMapNearest
  | NearestMipMapLinear
  | LinearMipMapNearest
  | LinearMipMapLinear
deriving DecidableEq, Repr

/-- translateWrapMode from texturecacheogl.cpp (part_017 lines 15-25). -/
def translateWrapMode : WrapMode → GLWrapMode
  | WrapMode.Repeat => GLWrapMode.Repeat
  | WrapMode.MirroredRepeat => GLWrapMode.MirroredRepeat
  | WrapMode.Clamp => GLWrapMode.ClampToEdge

/-- translateFilter from texturecacheogl.cpp (part_017 lines 26-42). -/
def translateFilter : TexFilter → GLFilter
  | TexFilter.Nearest => GLFilter.Nearest
  | TexFilter.Linear => GLFilter.Linear
  | TexFilter.NearestMipMapNearest => GLFilter.NearestMipMapNearest
  | TexFilter.NearestMipMapLinear => GLFilter.NearestMipMapLinear
  | TexFilter.LinearMipMapNearest => GLFilter.LinearMipMapNearest
  | TexFilter.LinearMipMapLinear => GLFilter.LinearMipMapLinear

/-- CPU-side Texture resource contents (texture.h accessors used by
TextureCacheOGL::update). The image is an opaque identifier. -/
structure TextureRes where
  wrapX : WrapMode
  wrapY : WrapMode
  wrapZ : WrapMode
  minFilter : TexFilter
  magFilter : TexFilter
  lodBias : Rat
  maxAnisotropy : Rat
  genMipMaps : Bool
  image : Nat
deriving DecidableEq, Repr

/-- GPU-side texture object as (re)built by TextureCacheOGL::update:
the QOpenGLTexture with the settings copied from the Texture. -/
structure TexUpload where
  wrapS : GLWrapMode
  wrapT : GLWrapMode
  maxAnisotropy : Rat
  minFilter : GLFilter
  magFilter : GLFilter
  lodBias : Rat
  image : Nat
  mipMaps : Bool
deriving DecidableEq, Repr

/-- Model of a TextureCacheOGL object: identity, the inherited dirty flag
(m_isDirty, true at construction), the owned QOpenGLTexture (none until the
first update), and an observation counter recording how many times update()
has run (the update-counter hook of spec section 8). -/
structure TexCacheObj where
  ptr : Nat
  dirty : Bool
  updateCount : Nat
  gpuTexture : Option TexUpload
deriving DecidableEq, Repr

/-- TextureCacheOGL::update (part_017 lines 43-58): if the weak texture()
reference is gone, do nothing; otherwise rebuild the QOpenGLTexture from the
Texture contents. The source function never calls markClean(), so the dirty
flag is left unchanged. -/
def textureCacheOGL_update (t : Option TextureRes) (c : TexCacheObj) : TexCacheObj :=
  let c0 : TexCacheObj := { c with updateCount := c.updateCount + 1 }
  match t with
  | none => c0
  | some t =>
      { c0 with gpuTexture := some {
          wrapS := translateWrapMode t.wrapX
          wrapT := translateWrapMode t.wrapY
          maxAnisotropy := t.maxAnisotropy
          minFilter := translateFilter t.minFilter
          magFilter := translateFilter t.magFilter
          lodBias := t.lodBias
          image := t.image
          mipMaps := t.genMipMaps } }

/-- Combined state for the texture build pipeline: the Texture resource with
its per-renderer cache map (none = no entry, some none = nulled QPointer,
some (some c) = live cache), the allocator counter, and the pointers the
renderer has registered through addToTextureCaches. -/
structure TextureState where
  tex : TextureRes
  textureCache : Nat → Option (Option TexCacheObj)
  nextPtr : Nat
  rendererTexCaches : List Nat

/-- Texture::invalidateCache (texture.cpp lines 180-201) acting on the
per-renderer cache map: with rendererID = UINTPTR_MAX it erases nulled
entries and marks every live entry dirty; otherwise it touches only the
entry for rendererID (erasing it if nulled, marking it dirty if live). -/
def texture_invalidateCache (rendererID : Nat)
    (m : Nat → Option (Option TexCacheObj)) : Nat → Option (Option TexCacheObj) :=
  if rendererID = UINTPTR_MAX then
    fun r =>
      match m r with
      | none => none
      | some none => none
      | some (some c) => some (some { c with dirty := true })
  else
    fun r =>
      if r = rendererID then
        match m rendererID with
        | none => none
        | some none => none
        | some (some c) => some (some { c with dirty := true })
      else m r

/-- Texture::getOrEmplaceTextureCache instantiated at T = TextureCacheOGL
(the same template shape as mesh.h lines 170-184): a missing or nulled entry
leads to a new cache constructed dirty; a live entry is returned as is. -/
def getOrEmplaceTextureCache (rendererID : Nat) (s : TextureState) :
    (TexCacheObj × Bool) × TextureState :=
  match s.textureCache rendererID with
  | none | some none =>
      let c : TexCacheObj :=
        { ptr := s.nextPtr, dirty := true, updateCount := 0, gpuTexture := none }
      ((c, true),
       { s with
         textureCache := fun r => if r = rendererID then some (some c) else s.textureCache r,
         nextPtr := s.nextPtr + 1 })
  | some (some c) => ((c, false), s)

/-- RendererOGL::buildTextureCache (rendererogl.cpp lines 650-660): fetch or
create the cache, update it when dirty, register it when newly created. The
C++ code mutates the cache object through its pointer; the model writes the
updated object back into its map slot. -/
def buildTextureCache (rendererID : Nat) (s : TextureState) :
    TexCacheObj × TextureState :=
  let step1 := getOrEmplaceTextureCache rendererID s
  let tc := step1.1.1
  let created := step1.1.2
  let s1 := step1.2
  let tc2 := if tc.dirty then textureCacheOGL_update (some s1.tex) tc else tc
  let s2 := { s1 with
    textureCache := fun r => if r = rendererID then some (some tc2) else s1.textureCache r }
  let s3 := if created then
      { s2 with rendererTexCaches := s2.rendererTexCaches ++ [tc2.ptr] }
    else s2
  (tc2, s3)

/-- Concrete Texture resource used to evaluate the build pipeline (the
default-constructed Texture of texture.cpp lines 88-97). -/
def sampleTexture : TextureRes :=
  { wrapX := WrapMode.Repeat
    wrapY := WrapMode.Repeat
    wrapZ := WrapMode.Repeat
    minFilter := TexFilter.LinearMipMapLinear
    magFilter := TexFilter.Linear
    lodBias := -1
    maxAnisotropy := 8
    genMipMaps := true
    image := 0 }

/-- Fresh pipeline state: texture without any cache entry. -/
def freshTextureState : TextureState :=
  { tex := sampleTexture
    textureCache := fun _ => none
    nextPtr := 1
    rendererTexCaches := [] }

/-- C1: two consecutive buildTextureCache calls on the same Texture with no
intervening invalidateCache return the same cache pointer, but update() runs
on BOTH calls (updateCount = 2), because TextureCacheOGL::update never calls
markClean() and buildTextureCache re-enters update whenever the cache is
still dirty. This refutes the claim that update() is invoked at most once
across the two calls. -/
theorem C1_texture_update_runs_twice :
    (buildTextureCache 0 freshTextureState).1.ptr
        = (buildTextureCache 0 (buildTextureCache 0 freshTextureState).2).1.ptr
      ∧ (buildTextureCache 0 (buildTextureCache 0 freshTextureState).2).1.updateCount = 2
      ∧ (buildTextureCache 0 (buildTextureCache 0 freshTextureState).2).1.dirty = true := by
  decide

/-- C6: Texture::invalidateCache with rendererID = UINTPTR_MAX marks every
live cache entry dirty and erases entries whose cache object is destroyed,
while invalidateCache(id) for a specific id rewrites only the entry for id
(erasing it if destroyed, marking it dirty if live) and leaves every other
entry, dirty flag included, untouched. -/
theorem C6_invalidateCache_all_vs_targeted :
    ∀ (m : Nat → Option (Option TexCacheObj)) (r rendererID : Nat),
      (texture_invalidateCache UINTPTR_MAX m r =
        match m r with
        | none => none
        | some none => none
        | some (some c) => some (some { c with dirty := true }))
      ∧ (rendererID ≠ UINTPTR_MAX →
          texture_invalidateCache rendererID m rendererID =
            match m rendererID with
            | none => none
            | some none => none
            | some (some c) => some (some { c with dirty := true }))
      ∧ (rendererID ≠ UINTPTR_MAX → r ≠ rendererID →
          texture_invalidateCache rendererID m r = m r) := by
  intro m r rendererID
  refine ⟨?_, ?_, ?_⟩
  · simp [texture_invalidateCache]
  · intro hne
    simp [texture_invalidateCache, hne]
  · intro hne hr
    simp only [texture_invalidateCache, if_neg hne, if_neg hr]

/-- Witness for C6 at a concrete cache map: renderer 5 holds a live clean
cache, renderer 7 a destroyed one; invalidating renderer 3 leaves entry 5
untouched, and invalidating all marks entry 5 dirty. -/
theorem C6_witness :
    (3 : Nat) ≠ UINTPTR_MAX
    ∧ (5 : Nat) ≠ (3 : Nat)
    ∧ texture_invalidateCache 3
        (fun r => if r = 5 then some (some ⟨10, false, 1, none⟩) else none) 5
        = some (some ⟨10, false, 1, none⟩) := by
  have h := C6_invalidateCache_all_vs_targeted
    (fun r => if r = 5 then some (some ⟨10, false, 1, none⟩) else none) 5 3
  exact ⟨by decide, by decide, h.2.2 (by decide) (by decide)⟩

/-! ## Material resource and MaterialCacheOGL (material.cpp, part_019) -/

/-- Shader stages (Material::ShaderType); only the GLSL mode is used by the
OpenGL cache, so the mode key is dropped. -/
inductive ShaderType
  | VertexShader
  | FragmentShader
  | GeometryShader
deriving DecidableEq, Repr

/-- CPU-side Material resource: Material::shader(GLSL, type) returns the
stored source string or an empty QString when none was set. -/
structure MaterialRes where
  shaders : ShaderType → String

/-- Outcome oracle for the GL driver: whether QOpenGLShaderProgram::link
succeeds for the given (geometry, vertex, fragment) sources, and the
glGetUniformBlockIndex result per block name (none = GL_INVALID_INDEX). -/
structure GLLinkEnv where
  linkOk : String → String → String → Bool
  uboIndex : String → Option Nat

/-- Model of a MaterialCacheOGL object: identity, inherited dirty flag
(true at construction), update() invocation counter, the owned shader
program (none = no usable program), and the cached uniform-block indices
retrieved after a successful link. -/
structure MatCacheObj where
  ptr : Nat
  dirty : Bool
  updateCount : Nat
  program : Option Nat
  meshUBO_index : Option Nat
  matpropUBO_index : Option Nat
  sceneUBO_index : Option Nat
  lineUBO_index : Option Nat
deriving DecidableEq, Repr

/-- MaterialCacheOGL::update (part_019 lines 123-190): a dead material or an
empty vertex/fragment source resets the program and returns (no log, no
markClean); a link failure logs a warning, resets the program and returns
(no markClean); on success the program is rebuilt, the uniform-block indices
are fetched and markClean() clears the dirty flag. The default texture-slot
uniforms applied on success act only on GL state and are not otherwise
observable. -/
def materialCacheOGL_update (env : GLLinkEnv) (mat : Option MaterialRes)
    (c : MatCacheObj) : MatCacheObj × List (LogChannel × String) :=
  let c0 : MatCacheObj := { c with updateCount := c.updateCount + 1 }
  match mat with
  | none => ({ c0 with program := none }, [])
  | some m =>
      let gxShader := m.shaders ShaderType.GeometryShader
      let vxShader := m.shaders ShaderType.VertexShader
      let fxShader := m.shaders ShaderType.FragmentShader
      if vxShader = "" ∨ fxShader = "" then
        ({ c0 with program := none }, [])
      else if env.linkOk gxShader vxShader fxShader = false then
        ({ c0 with program := none },
         [(LogChannel.LC_Warning, "Couldnt link QOpenGLShader")])
      else
        ({ c0 with
            program := some c0.ptr
            meshUBO_index := env.uboIndex "MeshUBO_Data"
            matpropUBO_index := env.uboIndex "MaterialUBO_Data"
            sceneUBO_index := env.uboIndex "SceneUBO_Data"
            lineUBO_index := env.uboIndex "LineUBO_Data"
            dirty := false },
         [])

/-- GL calls issued by MaterialCacheOGL::install. -/
inductive InstallEvent
  | bindProgram (id : Nat)
  | uniformBlockBinding (prog : Nat) (blockIndex : Nat) (bindingPoint : Nat)
deriving DecidableEq, Repr

/-- UBO binding points of RendererOGL (rendererogl.h is not part of the
snapshot; the numeric values are opaque to every claim). -/
def UBO_MeshBinding : Nat := 0

/-- UBO binding point for material properties data. -/
def UBO_MaterialPropertiesBinding : Nat := 1

/-- UBO binding point for scene data. -/
def UBO_SceneBinding : Nat := 2

/-- UBO binding point for line data. -/
def UBO_LineBinding : Nat := 3

/-- MaterialCacheOGL::install (part_019 lines 97-121): without a usable
program, or with a dead material, nothing is issued; otherwise the program
is bound and the valid uniform-block indices are wired to the renderer
binding points. -/
def materialCacheOGL_install (mat : Option MaterialRes) (c : MatCacheObj) :
    List InstallEvent :=
  match c.program with
  | none => []
  | some pid =>
      match mat with
      | none => []
      | some _ =>
          [InstallEvent.bindProgram pid]
          ++ (match c.meshUBO_index with
              | none => []
              | some i => [InstallEvent.uniformBlockBinding pid i UBO_MeshBinding])
          ++ (match c.matpropUBO_index with
              | none => []
              | some i => [InstallEvent.uniformBlockBinding pid i UBO_MaterialPropertiesBinding])
          ++ (match c.sceneUBO_index with
              | none => []
              | some i => [InstallEvent.uniformBlockBinding pid i UBO_SceneBinding])
          ++ (match c.lineUBO_index with
              | none => []
              | some i => [InstallEvent.uniformBlockBinding pid i UBO_LineBinding])

/-- Combined state for the material build pipeline, mirroring TextureState. -/
structure MaterialState where
  mat : MaterialRes
  materialCache : Nat → Option (Option MatCacheObj)
  nextPtr : Nat
  rendererMatCaches : List Nat
  logs : List (LogChannel × String)

/-- Material::invalidateMaterialCache (material.cpp lines 94-113) on the
per-renderer cache map: identical branching to Texture::invalidateCache. -/
def material_invalidateMaterialCache (rendererID : Nat)
    (m : Nat → Option (Option MatCacheObj)) : Nat → Option (Option MatCacheObj) :=
  if rendererID = UINTPTR_MAX then
    fun r =>
      match m r with
      | none => none
      | some none => none
      | some (some c) => some (some { c with dirty := true })
  else
    fun r =>
      if r = rendererID then
        match m rendererID with
        | none => none
        | some none => none
        | some (some c) => some (some { c with dirty := true })
      else m r

/-- Material::invalidateMaterialCache lifted to the pipeline state. -/
def materialState_invalidate (rendererID : Nat) (s : MaterialState) : MaterialState :=
  { s with materialCache := material_invalidateMaterialCache rendererID s.materialCache }

/-- Material::getOrEmplaceMaterialCache instantiated at T = MaterialCacheOGL:
a missing or nulled entry yields a fresh cache constructed dirty. -/
def getOrEmplaceMaterialCache (rendererID : Nat) (s : MaterialState) :
    (MatCacheObj × Bool) × MaterialState :=
  match s.materialCache rendererID with
  | none | some none =>
      let c : MatCacheObj :=
        { ptr := s.nextPtr, dirty := true, updateCount := 0, program := none,
          meshUBO_index := none, matpropUBO_index := none,
          sceneUBO_index := none, lineUBO_index := none }
      ((c, true),
       { s with
         materialCache := fun r => if r = rendererID then some (some c) else s.materialCache r,
         nextPtr := s.nextPtr + 1 })
  | some (some c) => ((c, false), s)

/-- RendererOGL::buildMaterialCache (rendererogl.cpp lines 627-637): fetch or
create the cache, update it when dirty (appending any log output), register
it when newly created. -/
def buildMaterialCache (env : GLLinkEnv) (rendererID : Nat) (s : MaterialState) :
    MatCacheObj × MaterialState :=
  let step1 := getOrEmplaceMaterialCache rendererID s
  let mc := step1.1.1
  let created := step1.1.2
  let s1 := step1.2
  let upd := if mc.dirty then materialCacheOGL_update env (some s1.mat) mc else (mc, [])
  let mc2 := upd.1
  let s2 := { s1 with
    materialCache := fun r => if r = rendererID then some (some mc2) else s1.materialCache r,
    logs := s1.logs ++ upd.2 }
  let s3 := if created then
      { s2 with rendererMatCaches := s2.rendererMatCaches ++ [mc2.ptr] }
    else s2
  (mc2, s3)

/-- C3: when a live cache of concrete type A is stored for a rendererID and
type B ≠ A is requested, getOrEmplaceCache fails with the collision error
and leaves the map state (in particular the existing entry) unmodified;
a stored entry whose weak reference is null is treated as absent, so a new
cache of the requested type is created and the stale slot replaced. -/
theorem C3_collision_and_stale_slot :
    ∀ (s : CacheMapState) (rendererID A B p : Nat),
      (s.entries rendererID = some (SlotEntry.live A p) → A ≠ B →
        (getOrEmplaceCache B rendererID s).1 = Except.error collisionMsg
        ∧ (getOrEmplaceCache B rendererID s).2 = s)
      ∧ (s.entries rendererID = some SlotEntry.dead →
        (getOrEmplaceCache B rendererID s).1 = Except.ok (s.nextPtr, true)
        ∧ (getOrEmplaceCache B rendererID s).2.entries rendererID
            = some (SlotEntry.live B s.nextPtr)) := by
  intro s rendererID A B p
  constructor
  · intro h hAB
    simp [getOrEmplaceCache, h, hAB]
  · intro h
    simp [getOrEmplaceCache, h]

/-- Witness for C3: a map holding a live cache of type 1 at renderer 0 and a
dead entry at renderer 4; requesting type 2 at renderer 0 collides without
mutating the state, requesting type 2 at renderer 4 replaces the stale slot. -/
theorem C3_witness :
    (getOrEmplaceCache 2 0 ⟨fun r => if r = 0 then some (SlotEntry.live 1 7)
        else if r = 4 then some SlotEntry.dead else none, 9⟩).1
      = Except.error collisionMsg
    ∧ (getOrEmplaceCache 2 4 ⟨fun r => if r = 0 then some (SlotEntry.live 1 7)
        else if r = 4 then some SlotEntry.dead else none, 9⟩).2.entries 4
      = some (SlotEntry.live 2 9) := by
  have h1 := (C3_collision_and_stale_slot
    ⟨fun r => if r = 0 then some (SlotEntry.live 1 7)
        else if r = 4 then some SlotEntry.dead else none, 9⟩ 0 1 2 7).1
    (by decide) (by decide)
  have h2 := (C3_collision_and_stale_slot
    ⟨fun r => if r = 0 then some (SlotEntry.live 1 7)
        else if r = 4 then some SlotEntry.dead else none, 9⟩ 4 1 2 7).2
    (by decide)
  exact ⟨h1.1, h2.2⟩

/-- Material whose vertex and fragment sources were never set: shader()
returns the empty string for every stage. -/
def emptyMaterial : MaterialRes := { shaders := fun _ => "" }

/-- GL environment in which every link attempt succeeds and no uniform block
exists. -/
def linkAlwaysEnv : GLLinkEnv := { linkOk := fun _ _ _ => true, uboIndex := fun _ => none }

/-- Material cache entry as left by an earlier buildMaterialCache on the
empty material: clean does not arise, but take a clean cache to match the
claim scenario of a resource that already has a cache. -/
def c2StaleCache : MatCacheObj :=
  { ptr := 1, dirty := false, updateCount := 1, program := none,
    meshUBO_index := none, matpropUBO_index := none,
    sceneUBO_index := none, lineUBO_index := none }

/-- Pipeline state for the C2 counterexample: the empty material already
holds a cache for renderer 0. -/
def c2EmptyState : MaterialState :=
  { mat := emptyMaterial
    materialCache := fun r => if r = 0 then some (some c2StaleCache) else none
    nextPtr := 2
    rendererMatCaches := [1]
    logs := [] }

/-- C2 counterexample: for the material whose shader sources are empty, the
build call after invalidateMaterialCache() does invoke update() exactly once,
but isDirty() is still true afterwards, because MaterialCacheOGL::update
returns before markClean() when the vertex or fragment source is empty. The
claim that isDirty() is false after the call is therefore refuted. -/
theorem C2_counterexample_empty_shader_stays_dirty :
    (buildMaterialCache linkAlwaysEnv 0
        (materialState_invalidate UINTPTR_MAX c2EmptyState)).1.updateCount = 2
    ∧ (buildMaterialCache linkAlwaysEnv 0
        (materialState_invalidate UINTPTR_MAX c2EmptyState)).1.dirty = true := by
  decide

/-- C2 (amended): after invalidateMaterialCache(), the next buildMaterialCache
call invokes exactly one update() before returning; isDirty() is false
afterwards provided the update succeeded, i.e. the vertex and fragment
sources are non-empty and the program links. -/
theorem C2_invalidate_then_build :
    ∀ (env : GLLinkEnv) (s : MaterialState) (rendererID : Nat) (c : MatCacheObj),
      s.materialCache rendererID = some (some c) →
      (buildMaterialCache env rendererID
          (materialState_invalidate UINTPTR_MAX s)).1.updateCount = c.updateCount + 1
      ∧ (s.mat.shaders ShaderType.VertexShader ≠ "" →
         s.mat.shaders ShaderType.FragmentShader ≠ "" →
         env.linkOk (s.mat.shaders ShaderType.GeometryShader)
             (s.mat.shaders ShaderType.VertexShader)
             (s.mat.shaders ShaderType.FragmentShader) = true →
         (buildMaterialCache env rendererID
             (materialState_invalidate UINTPTR_MAX s)).1.dirty = false) := by
  intro env s rendererID c h
  have h1 : material_invalidateMaterialCache UINTPTR_MAX s.materialCache rendererID
      = some (some { c with dirty := true }) := by
    simp [material_invalidateMaterialCache, h]
  constructor
  · simp only [buildMaterialCache, getOrEmplaceMaterialCache, materialState_invalidate, h1]
    simp [materialCacheOGL_update]
    split
    · rfl
    · split <;> rfl
  · intro hv hf hl
    simp only [buildMaterialCache, getOrEmplaceMaterialCache, materialState_invalidate, h1]
    simp [materialCacheOGL_update, hv, hf, hl]

/-- Concrete material with trivial non-empty shader sources. -/
def c2GoodMaterial : MaterialRes :=
  { shaders := fun t =>
      match t with
      | ShaderType.VertexShader => "void main() \x7b \x7d"
      | ShaderType.FragmentShader => "void main() \x7b \x7d"
      | ShaderType.GeometryShader => "" }

/-- Pipeline state for the C2 witness: the good material already holds a
clean cache for renderer 0 from an earlier build. -/
def c2GoodState : MaterialState :=
  { mat := c2GoodMaterial
    materialCache := fun r => if r = 0 then some (some c2StaleCache) else none
    nextPtr := 2
    rendererMatCaches := [1]
    logs := [] }

/-- Witness for C2: invalidating and rebuilding the good material runs one
update and leaves the cache clean. -/
theorem C2_witness :
    (buildMaterialCache linkAlwaysEnv 0
        (materialState_invalidate UINTPTR_MAX c2GoodState)).1.updateCount = 2
    ∧ (buildMaterialCache linkAlwaysEnv 0
        (materialState_invalidate UINTPTR_MAX c2GoodState)).1.dirty = false := by
  have h := C2_invalidate_then_build linkAlwaysEnv c2GoodState 0 c2StaleCache (by decide)
  refine ⟨?_, h.2 (by decide) (by decide) rfl⟩
  rw [h.1]
  decide

/-- GL environment in which linking always fails. -/
def linkFailEnv : GLLinkEnv := { linkOk := fun _ _ _ => false, uboIndex := fun _ => none }

/-- Fresh material cache object as constructed by getOrEmplaceMaterialCache. -/
def freshMatCache : MatCacheObj :=
  { ptr := 1, dirty := true, updateCount := 0, program := none,
    meshUBO_index := none, matpropUBO_index := none,
    sceneUBO_index := none, lineUBO_index := none }

/-- C9 counterexample: for a material whose fragment (and vertex) source is
empty, MaterialCacheOGL::update leaves the cache without a usable program
but emits no log at all, refuting the part of the claim that the
compiler/linker diagnostics are logged in the empty-source case. -/
theorem C9_counterexample_empty_source_logs_nothing :
    (materialCacheOGL_update linkAlwaysEnv (some emptyMaterial) freshMatCache).1.program = none
    ∧ (materialCacheOGL_update linkAlwaysEnv (some emptyMaterial) freshMatCache).2 = [] := by
  decide

/-- C9 (amended): when the shader program fails to link, update leaves the
cache without a usable program and logs the linker diagnostics at warning
level; when the vertex or fragment source is empty, it likewise leaves no
usable program but emits no log; and every install of a cache without a
program issues no GL call, so draws referencing the material are skipped. -/
theorem C9_failed_update_and_noop_install :
    ∀ (env : GLLinkEnv) (m : MaterialRes) (c : MatCacheObj),
      (m.shaders ShaderType.VertexShader ≠ "" →
       m.shaders ShaderType.FragmentShader ≠ "" →
       env.linkOk (m.shaders ShaderType.GeometryShader)
           (m.shaders ShaderType.VertexShader)
           (m.shaders ShaderType.FragmentShader) = false →
        (materialCacheOGL_update env (some m) c).1.program = none
        ∧ (materialCacheOGL_update env (some m) c).2
            = [(LogChannel.LC_Warning, "Couldnt link QOpenGLShader")])
      ∧ (m.shaders ShaderType.VertexShader = "" ∨ m.shaders ShaderType.FragmentShader = "" →
        (materialCacheOGL_update env (some m) c).1.program = none
        ∧ (materialCacheOGL_update env (some m) c).2 = [])
      ∧ (∀ (mat : Option MaterialRes) (c2 : MatCacheObj), c2.program = none →
          materialCacheOGL_install mat c2 = []) := by
  intro env m c
  refine ⟨?_, ?_, ?_⟩
  · intro hv hf hl
    constructor <;> simp [materialCacheOGL_update, hv, hf, hl]
  · intro hvf
    constructor <;> simp [materialCacheOGL_update, hvf]
  · intro mat c2 hp
    simp [materialCacheOGL_install, hp]

/-- Witness for C9: a link failure on the good material logs the warning and
leaves no program, and installing the failed cache is a no-op. -/
theorem C9_witness :
    (materialCacheOGL_update linkFailEnv (some c2GoodMaterial) freshMatCache).1.program = none
    ∧ (materialCacheOGL_update linkFailEnv (some c2GoodMaterial) freshMatCache).2
        = [(LogChannel.LC_Warning, "Couldnt link QOpenGLShader")]
    ∧ materialCacheOGL_install (some c2GoodMaterial)
        (materialCacheOGL_update linkFailEnv (some c2GoodMaterial) freshMatCache).1 = [] := by
  have h := C9_failed_update_and_noop_install linkFailEnv c2GoodMaterial freshMatCache
  have h1 := h.1 (by decide) (by decide) rfl
  exact ⟨h1.1, h1.2, h.2.2 (some c2GoodMaterial) _ h1.1⟩

/-! ## OIT composite shader (A3D/OITMaterial.frag, RendererOGL::EndDrawing) -/

/-- RGBA value, with exact rationals standing in for GLSL floats. -/
structure Vec4 where
  r : Rat
  g : Rat
  b : Rat
  a : Rat
deriving DecidableEq, Repr

/-- Additive framebuffer blending, glBlendFunc(GL_ONE, GL_ONE), as enabled by
RendererOGL::BeginTranslucent for the accumulation buffers. -/
def additiveBlend (dst src : Vec4) : Vec4 :=
  ⟨dst.r + src.r, dst.g + src.g, dst.b + src.b, dst.a + src.a⟩

/-- Body of main() in OITMaterial.frag (lines 9-19): the accumulated color is
divided by max(revealage, 0.0001) and the alpha set to the revealage, after
which line 18 overwrites the red channel with TexCoord.x. -/
def oitFragMain (texCoord : Rat × Rat) (colorAccum : Vec4) (alphaAccum : Rat) : Vec4 :=
  let frag : Vec4 :=
    ⟨colorAccum.r / max alphaAccum (1 / 10000),
     colorAccum.g / max alphaAccum (1 / 10000),
     colorAccum.b / max alphaAccum (1 / 10000),
     alphaAccum⟩
  { frag with r := texCoord.1 }

/-- Modelled from the spec: the OIT composite as section 4.4 states it,
finalColor = accumColor / max(revealage, epsilon) and finalAlpha = revealage,
with epsilon = 0.0001; used to compare the shader against the claim. -/
def oitCompositeSpec (colorAccum : Vec4) (alphaAccum : Rat) : Vec4 :=
  ⟨colorAccum.r / max alphaAccum (1 / 10000),
   colorAccum.g / max alphaAccum (1 / 10000),
   colorAccum.b / max alphaAccum (1 / 10000),
   alphaAccum⟩

/-- C5: with two translucent contributions (1,0,0,1/2) and (1,0,0,1/2) with
revealage weights 1/2 each, the additively accumulated buffers hold
accumColor = (2,0,0,1) and revealage = 1, and the composite should produce
color.r = (c1+c2).r/(a1+a2) = 2; the shader instead emits fragColor.r =
TexCoord.x = 0 at the pixel (0,0), because line 18 of OITMaterial.frag
overwrites the red channel. Green, blue and alpha still match the claim. -/
theorem C5_composite_red_channel_overwritten :
    additiveBlend (additiveBlend ⟨0, 0, 0, 0⟩ ⟨1, 0, 0, 1/2⟩) ⟨1, 0, 0, 1/2⟩ = ⟨2, 0, 0, 1⟩
    ∧ ((1 : Rat) / 2) + 1 / 2 = 1
    ∧ oitFragMain (0, 0) ⟨2, 0, 0, 1⟩ 1 = ⟨0, 0, 0, 1⟩
    ∧ oitCompositeSpec ⟨2, 0, 0, 1⟩ 1 = ⟨2, 0, 0, 1⟩
    ∧ (oitFragMain (0, 0) ⟨2, 0, 0, 1⟩ 1).r ≠ (oitCompositeSpec ⟨2, 0, 0, 1⟩ 1).r := by
  have hmax : (1 : Rat) ⊔ 10000⁻¹ = 1 := by
    rw [sup_eq_left]
    norm_num
  refine ⟨?_, by norm_num, ?_, ?_, ?_⟩
  · simp [additiveBlend]
    norm_num
  · simp [oitFragMain, hmax]
  · simp [oitCompositeSpec, hmax]
  · simp [oitFragMain, oitCompositeSpec, hmax]

/-! ## Draw dispatch (RendererOGL::Draw, lines 119-219) -/

/-- One scene Group as Draw reads it: the Hidden bit of renderOptions() and
the four nullable resource pointers (opaque identities). -/
structure Group where
  hidden : Bool
  mesh : Option Nat
  material : Option Nat
  materialProperties : Option Nat
  lineGroup : Option Nat
deriving DecidableEq, Repr

/-- Which material cache the line pass installs: the group material or the
process-wide default line material m_lineMaterial of the renderer
(Material::standardMaterial(Material::LineMaterial), built in BeginDrawing
lines 312-315). -/
inductive LineMaterialChoice
  | groupMaterial
  | defaultLineMaterial
deriving DecidableEq, Repr

/-- Observable outcome of a Draw call for one group. -/
structure DrawOutcome where
  geometryPass : Bool
  linePass : Bool
  lineMaterial : Option LineMaterialChoice
deriving DecidableEq, Repr

/-- RendererOGL::Draw control flow (lines 119-219): a null or Hidden group
draws nothing; the geometry pass runs when mesh, material and
materialProperties are all present; the line pass runs when a lineGroup is
present, installing the group material only when the group has a material
but no mesh (line 198), and the default line material otherwise. -/
def drawDispatch (g : Option Group) : DrawOutcome :=
  match g with
  | none => ⟨false, false, none⟩
  | some g =>
      if g.hidden then ⟨false, false, none⟩
      else
        let geometry := g.mesh.isSome && g.material.isSome && g.materialProperties.isSome
        if g.lineGroup.isSome then
          let lm := if !g.mesh.isSome && g.material.isSome
            then LineMaterialChoice.groupMaterial
            else LineMaterialChoice.defaultLineMaterial
          ⟨geometry, true, some lm⟩
        else ⟨geometry, false, none⟩

/-- C7: a null or Hidden group draws nothing; otherwise the geometry pass
runs exactly when mesh, material and materialProperties are all present and
the line pass exactly when a lineGroup is present; the two passes are
independent and one Draw call can run both. -/
theorem C7_draw_pass_conditions :
    (drawDispatch none = ⟨false, false, none⟩)
    ∧ (∀ g : Group, g.hidden = true → drawDispatch (some g) = ⟨false, false, none⟩)
    ∧ (∀ g : Group, g.hidden = false →
        (drawDispatch (some g)).geometryPass
          = (g.mesh.isSome && g.material.isSome && g.materialProperties.isSome)
        ∧ (drawDispatch (some g)).linePass = g.lineGroup.isSome)
    ∧ (∃ g : Group, (drawDispatch (some g)).geometryPass = true
        ∧ (drawDispatch (some g)).linePass = true) := by
  refine ⟨rfl, ?_, ?_, ?_⟩
  · intro g h
    simp [drawDispatch, h]
  · intro g h
    cases hl : g.lineGroup.isSome <;> simp [drawDispatch, h, hl]
  · exact ⟨⟨false, some 0, some 0, some 0, some 0⟩, by decide⟩

/-- Witness for C7: a visible group with every resource present runs both
passes, and a hidden one draws nothing. -/
theorem C7_witness :
    (drawDispatch (some ⟨false, some 1, some 2, some 3, some 4⟩)).geometryPass = true
    ∧ (drawDispatch (some ⟨false, some 1, some 2, some 3, some 4⟩)).linePass = true
    ∧ drawDispatch (some ⟨true, some 1, some 2, some 3, some 4⟩) = ⟨false, false, none⟩ := by
  have h3 := (C7_draw_pass_conditions.2.2.1 ⟨false, some 1, some 2, some 3, some 4⟩ rfl)
  have h2 := C7_draw_pass_conditions.2.1 ⟨true, some 1, some 2, some 3, some 4⟩ rfl
  exact ⟨by rw [h3.1]; rfl, by rw [h3.2]; rfl, h2⟩

/-- C10: a visible group holding both a mesh and a lineGroup renders the line
pass with the default line material of the renderer, and the group material is
installed for the line pass exactly when the group has a material but no
mesh. -/
theorem C10_line_pass_material_choice :
    ∀ g : Group, g.hidden = false → g.lineGroup.isSome = true →
      (g.mesh.isSome = true →
        (drawDispatch (some g)).lineMaterial = some LineMaterialChoice.defaultLineMaterial)
      ∧ ((drawDispatch (some g)).lineMaterial = some LineMaterialChoice.groupMaterial
          ↔ g.mesh.isSome = false ∧ g.material.isSome = true) := by
  intro g hh hl
  constructor
  · intro hm
    simp [drawDispatch, hh, hl, hm]
  · cases hm : g.mesh.isSome <;> cases hmat : g.material.isSome <;>
      simp [drawDispatch, hh, hl, hm, hmat]

/-- Witness for C10: a group with mesh, material and lineGroup uses the
default line material; a mesh-less group with material uses its own. -/
theorem C10_witness :
    (drawDispatch (some ⟨false, some 1, some 2, some 3, some 4⟩)).lineMaterial
      = some LineMaterialChoice.defaultLineMaterial
    ∧ (drawDispatch (some ⟨false, none, some 2, some 3, some 4⟩)).lineMaterial
      = some LineMaterialChoice.groupMaterial := by
  have h1 := C10_line_pass_material_choice ⟨false, some 1, some 2, some 3, some 4⟩ rfl rfl
  have h2 := C10_line_pass_material_choice ⟨false, none, some 2, some 3, some 4⟩ rfl rfl
  exact ⟨h1.1 rfl, h2.2.mpr ⟨rfl, rfl⟩⟩

/-! ## Cache deletion under context switching (RendererOGL::Delete,
ContextSwitcher, rendererogl.cpp lines 408-501) -/

/-- Context bookkeeping: the QPointer of the renderer to its QOpenGLContext
(none = destroyed) and the current context of the thread. -/
structure ContextState where
  rendererCtx : Option Nat
  current : Option Nat
deriving DecidableEq, Repr

/-- Observable outcome of one Delete(cache) overload: emitted log lines, the
context current at each performed GPU deletion, and the context current
after the call returns. -/
structure DeleteOutcome where
  logs : List (LogChannel × String)
  deletions : List (Option Nat)
  finalCurrent : Option Nat
deriving DecidableEq, Repr

/-- RendererOGL::Delete(MeshCache*) (rendererogl.cpp lines 431-441; the other
five overloads are identical): a null context logs and skips the deletion;
otherwise a ContextSwitcher (lines 408-429) makes the renderer context
current unless it already is, the cache is deleted, and the destructor
restores the previously current context (or calls doneCurrent when there was
none). -/
def rendererOGL_Delete (s : ContextState) : DeleteOutcome :=
  match s.rendererCtx with
  | none =>
      { logs := [(LogChannel.LC_Debug,
          "Couldnt delete cache: OpenGL context is unavailable. A memory leak might have happened.")],
        deletions := [],
        finalCurrent := s.current }
  | some ctx =>
      let old := s.current
      let cur1 := if some ctx ≠ old then some ctx else old
      let fin := if some ctx ≠ old then
          (match old with
           | some o => some o
           | none => none)
        else cur1
      { logs := [], deletions := [cur1], finalCurrent := fin }

/-- C8 counterexample: with the GPU context gone, Delete skips the GPU
deletion but logs at LC_Debug, not at the warning level the claim states. -/
theorem C8_counterexample_log_level :
    (rendererOGL_Delete ⟨none, some 3⟩).deletions = []
    ∧ (rendererOGL_Delete ⟨none, some 3⟩).logs.map Prod.fst = [LogChannel.LC_Debug]
    ∧ LogChannel.LC_Debug ≠ LogChannel.LC_Warning := by
  decide

/-- C8 (amended): when the GPU context of the renderer is gone, every Delete
overload skips the GPU deletion and logs at debug severity without touching
the current context; when the context is available, the deletion runs with
that context current and the previously current context is restored on
exit. -/
theorem C8_delete_context_discipline :
    ∀ s : ContextState,
      (s.rendererCtx = none →
        (rendererOGL_Delete s).deletions = []
        ∧ (rendererOGL_Delete s).logs.map Prod.fst = [LogChannel.LC_Debug]
        ∧ (rendererOGL_Delete s).finalCurrent = s.current)
      ∧ (∀ ctx : Nat, s.rendererCtx = some ctx →
        (rendererOGL_Delete s).deletions = [some ctx]
        ∧ (rendererOGL_Delete s).finalCurrent = s.current) := by
  intro s
  constructor
  · intro h
    simp [rendererOGL_Delete, h]
  · intro ctx h
    cases hcur : s.current with
    | none => simp [rendererOGL_Delete, h, hcur]
    | some o =>
        by_cases hc : ctx = o
        · subst hc
          simp [rendererOGL_Delete, h, hcur]
        · simp [rendererOGL_Delete, h, hcur, hc]

/-- Witness for C8: deleting with a live context (renderer context 5, current
context 9) deletes under context 5 and restores context 9; deleting with a
dead context performs no deletion. -/
theorem C8_witness :
    (rendererOGL_Delete ⟨some 5, some 9⟩).deletions = [some 5]
    ∧ (rendererOGL_Delete ⟨some 5, some 9⟩).finalCurrent = some 9
    ∧ (rendererOGL_Delete ⟨none, none⟩).deletions = [] := by
  have h1 := (C8_delete_context_discipline ⟨some 5, some 9⟩).2 5 rfl
  have h2 := (C8_delete_context_discipline (⟨none, none⟩ : ContextState)).1 rfl
  exact ⟨h1.1, h1.2, h2.1⟩


/-! ## GL state stack (RendererOGL::pushState / popState,
rendererogl.cpp lines 29-117)

OpenGL keeps texture bindings per texture unit: glBindTexture writes the
binding of the given target on the unit selected by the last glActiveTexture,
and the GL_TEXTURE_BINDING_* queries of pushState read the bindings of the
currently active unit. The model therefore indexes textureBindings by unit
and target. popState (lines 105-109) replays the saved glBindTexture calls
before restoring glActiveTexture, so the replays hit whichever unit the
nested work left active. -/

/-- Texture targets whose bindings pushState captures (the eleven
binding-query/target pairs of rendererogl.cpp lines 51-63). -/
inductive TexTarget
  | t1D
  | t2D
  | t3D
  | t1DArray
  | t2DArray
  | tRectangle
  | tCubeMap
  | tCubeMapArray
  | tBuffer
  | t2DMultisample
  | t2DMultisampleArray
deriving DecidableEq, Repr

/-- All eleven captured targets, in the order of lines 51-63. -/
def allTexTargets : List TexTarget :=
  [TexTarget.t1D, TexTarget.t2D, TexTarget.t3D, TexTarget.t1DArray,
   TexTarget.t2DArray, TexTarget.tRectangle, TexTarget.tCubeMap,
   TexTarget.tCubeMapArray, TexTarget.tBuffer, TexTarget.t2DMultisample,
   TexTarget.t2DMultisampleArray]

/-- GL global state at the granularity the state stack reads and writes:
texture bindings are kept per (texture unit, target) as in OpenGL core;
the framebuffer name allocator and the set of live framebuffer objects are
carried to express that popState deletes the framebuffer its matching
pushState created. -/
@[ext]
structure GLState where
  viewport : Int × Int × Int × Int
  drawFramebuffer : Nat
  readFramebuffer : Nat
  depthMask : Bool
  program : Nat
  depthTest : Bool
  cullFace : Bool
  blend : Bool
  textureBindings : Nat → TexTarget → Nat
  activeTexture : Nat
  nextFramebuffer : Nat
  liveFramebuffers : List Nat

/-- glActiveTexture(unit): selects the active texture unit. -/
def glActiveTexture (unit : Nat) (g : GLState) : GLState :=
  { g with activeTexture := unit }

/-- glBindTexture(target, name): writes the binding of the given target on
the currently active texture unit; other units are untouched. -/
def glBindTexture (target : TexTarget) (name : Nat) (g : GLState) : GLState :=
  { g with textureBindings := fun u t =>
      if u = g.activeTexture ∧ t = target then name else g.textureBindings u t }

/-- StateStorage stack frame (rendererogl.h): everything pushState snapshots
plus the name of the framebuffer the push created (0 when none). The
m_textureBindings map holds, per target, what
glGetIntegerv(GL_TEXTURE_BINDING_*) returned, i.e. the binding of the unit
that was active at push time. -/
structure StateStorage where
  m_viewport : Int × Int × Int × Int
  m_drawFramebuffer : Nat
  m_readFramebuffer : Nat
  m_depthMask : Bool
  m_program : Nat
  m_depthTest : Bool
  m_cullFace : Bool
  m_blend : Bool
  m_textureBindings : TexTarget → Nat
  m_activeTexture : Nat
  m_newFramebuffer : Nat

/-- Renderer state relevant to the stack: the GL state, m_stateStorage (top
of the std::stack at the head) and the log output. -/
structure RendererState where
  gl : GLState
  stateStorage : List StateStorage
  logs : List (LogChannel × String)

/-- Snapshot step of pushState (rendererogl.cpp lines 38-72): every captured
field is read from the current GL state; the per-target binding queries read
the unit that is active now; m_newFramebuffer starts at 0. -/
def captureState (g : GLState) : StateStorage :=
  { m_viewport := g.viewport
    m_drawFramebuffer := g.drawFramebuffer
    m_readFramebuffer := g.readFramebuffer
    m_depthMask := g.depthMask
    m_program := g.program
    m_depthTest := g.depthTest
    m_cullFace := g.cullFace
    m_blend := g.blend
    m_textureBindings := fun t => g.textureBindings g.activeTexture t
    m_activeTexture := g.activeTexture
    m_newFramebuffer := 0 }

/-- glGenFramebuffers(1, ...): allocate a fresh nonzero framebuffer name. -/
def glGenFramebuffers (g : GLState) : Nat × GLState :=
  (g.nextFramebuffer + 1,
   { g with
     nextFramebuffer := g.nextFramebuffer + 1,
     liveFramebuffers := g.liveFramebuffers ++ [g.nextFramebuffer + 1] })

/-- glBindFramebuffer(GL_FRAMEBUFFER, fb): binds both the draw and the read
target. -/
def glBindFramebufferBoth (fb : Nat) (g : GLState) : GLState :=
  { g with drawFramebuffer := fb, readFramebuffer := fb }

/-- glDeleteFramebuffers(1, ...): the name stops denoting a live object. -/
def glDeleteFramebuffers (fb : Nat) (g : GLState) : GLState :=
  { g with liveFramebuffers := g.liveFramebuffers.filter (fun x => x ≠ fb) }

/-- Log text of the pushState overflow branch (rendererogl.cpp line 34). -/
def pushOverflowMsg : String := "RendererOGL::pushState: GL State stack is too big."

/-- Log text of the popState underflow branch (rendererogl.cpp line 89). -/
def popEmptyMsg : String := "RendererOGL::popState: GL State stack is empty."

/-- RendererOGL::pushState (lines 29-82): refuse and log when the stack
already holds more than 24 frames; otherwise snapshot the GL state and, when
requested, create and bind a fresh framebuffer recorded in the frame. -/
def pushState (withFramebuffer : Bool) (s : RendererState) : RendererState :=
  if s.stateStorage.length > 24 then
    { s with logs := s.logs ++ [(LogChannel.LC_Critical, pushOverflowMsg)] }
  else
    let newStateStorage := captureState s.gl
    if withFramebuffer then
      let gen := glGenFramebuffers s.gl
      let fb := gen.1
      let g1 := gen.2
      let g2 := if fb ≠ 0 then glBindFramebufferBoth fb g1 else g1
      { s with
        gl := g2,
        stateStorage := { newStateStorage with m_newFramebuffer := fb } :: s.stateStorage }
    else
      { s with stateStorage := newStateStorage :: s.stateStorage }

/-- Replay of the saved texture bindings (popState lines 105-107): one
glBindTexture per stored target, each writing into whichever unit is active
at that moment. -/
def rebindSavedTextures (f : StateStorage) (g : GLState) : GLState :=
  allTexTargets.foldl (fun acc tgt => glBindTexture tgt (f.m_textureBindings tgt) acc) g

/-- Restore step of popState (lines 95-111), in source order: feature
toggles, viewport and framebuffers; then the glBindTexture replays, which
hit the unit still active from the nested work; only afterwards
glActiveTexture, depth mask and program. -/
def restoreState (f : StateStorage) (g : GLState) : GLState :=
  let g1 := { g with
    depthTest := f.m_depthTest
    cullFace := f.m_cullFace
    blend := f.m_blend
    viewport := f.m_viewport
    readFramebuffer := f.m_readFramebuffer
    drawFramebuffer := f.m_drawFramebuffer }
  let g2 := rebindSavedTextures f g1
  { g2 with
    activeTexture := f.m_activeTexture
    depthMask := f.m_depthMask
    program := f.m_program }

/-- RendererOGL::popState (lines 84-117): refuse and log on an empty stack;
otherwise restore from the top frame, delete the framebuffer that frame
created (if any) and pop. -/
def popState (s : RendererState) : RendererState :=
  match s.stateStorage with
  | [] => { s with logs := s.logs ++ [(LogChannel.LC_Critical, popEmptyMsg)] }
  | lastState :: rest =>
      let g1 := restoreState lastState s.gl
      let g2 := if lastState.m_newFramebuffer ≠ 0
        then glDeleteFramebuffers lastState.m_newFramebuffer g1
        else g1
      { s with gl := g2, stateStorage := rest }

/-- Arbitrary rendering work between a push and its matching pop: it may
change the GL state in any way but does not touch the state stack. -/
def applyGL (f : GLState → GLState) (s : RendererState) : RendererState :=
  { s with gl := f s.gl }

/-- Nested push/run/pop passes: each list element is the GL work performed
inside one nesting level and whether that level asks for a fresh
framebuffer; deeper levels nest inside earlier ones. -/
def runNestedPasses : List ((GLState → GLState) × Bool) → RendererState → RendererState
  | [], s => s
  | p :: rest, s => popState (runNestedPasses rest (applyGL p.1 (pushState p.2 s)))

/-- Tuple of the nine GL fields popState writes back as whole globals:
viewport, draw and read framebuffer, depth mask, program, the three feature
toggles and the active texture unit. -/
def restoredFields (g : GLState) :
    (Int × Int × Int × Int) × Nat × Nat × Bool × Nat × Bool × Bool × Bool × Nat :=
  (g.viewport, g.drawFramebuffer, g.readFramebuffer, g.depthMask, g.program,
   g.depthTest, g.cullFace, g.blend, g.activeTexture)

/-- The same nine fields as captured in a stack frame. -/
def frameRestored (f : StateStorage) :
    (Int × Int × Int × Int) × Nat × Nat × Bool × Nat × Bool × Bool × Bool × Nat :=
  (f.m_viewport, f.m_drawFramebuffer, f.m_readFramebuffer, f.m_depthMask, f.m_program,
   f.m_depthTest, f.m_cullFace, f.m_blend, f.m_activeTexture)

/-- Frame a successful pushState leaves on top of the stack. -/
def pushedFrame (withFramebuffer : Bool) (g : GLState) : StateStorage :=
  if withFramebuffer then
    { captureState g with m_newFramebuffer := (glGenFramebuffers g).1 }
  else captureState g

/-- Helper: every target is in the replayed list. -/
theorem mem_allTexTargets (t : TexTarget) : t ∈ allTexTargets := by
  cases t <;> simp [allTexTargets]

/-- Helper: a sequence of glBindTexture calls leaves every non-binding field
unchanged and rewrites, on the unit active when the sequence starts, exactly
the listed targets. -/
theorem bindFold_eq (l : List TexTarget) (fn : TexTarget → Nat) :
    ∀ g : GLState,
      l.foldl (fun acc tgt => glBindTexture tgt (fn tgt) acc) g
        = { g with textureBindings := fun u t =>
            if u = g.activeTexture ∧ t ∈ l then fn t else g.textureBindings u t } := by
  induction l with
  | nil =>
      intro g
      simp only [List.foldl_nil]
      ext u t <;> simp
  | cons h tl ih =>
      intro g
      rw [List.foldl_cons, ih (glBindTexture h (fn h) g)]
      ext u t <;> simp [glBindTexture]
      by_cases hu : u = g.activeTexture
      · by_cases hth : t = h
        · simp [hu, hth]
        · by_cases htl : t ∈ tl
          · simp [hu, hth, htl]
          · simp [hu, hth, htl]
      · simp [hu]

/-- Helper: net effect of restoreState: the nine global fields come from the
frame, the bindings of the unit active at pop time are overwritten with the
saved per-target map, every other unit keeps its bindings, and the
allocator/liveness fields pass through. -/
theorem restoreState_eq (f : StateStorage) (g : GLState) :
    restoreState f g
      = { g with
          viewport := f.m_viewport
          drawFramebuffer := f.m_drawFramebuffer
          readFramebuffer := f.m_readFramebuffer
          depthMask := f.m_depthMask
          program := f.m_program
          depthTest := f.m_depthTest
          cullFace := f.m_cullFace
          blend := f.m_blend
          textureBindings := fun u t =>
            if u = g.activeTexture then f.m_textureBindings t else g.textureBindings u t
          activeTexture := f.m_activeTexture } := by
  simp only [restoreState, rebindSavedTextures]
  rw [bindFold_eq]
  ext u t <;> simp [mem_allTexTargets]

/-- Helper: a successful push stacks exactly the frame capturing the current
GL state. -/
theorem pushState_stack_of_le (withFramebuffer : Bool) (s : RendererState)
    (h : ¬ s.stateStorage.length > 24) :
    (pushState withFramebuffer s).stateStorage
      = pushedFrame withFramebuffer s.gl :: s.stateStorage := by
  cases withFramebuffer <;> simp [pushState, pushedFrame, h]

/-- Helper: popping a non-empty stack pops one frame and restores the nine
global fields from it, whatever the current GL state is. -/
theorem popState_cons (s : RendererState) (f : StateStorage) (rest : List StateStorage)
    (h : s.stateStorage = f :: rest) :
    (popState s).stateStorage = rest
    ∧ restoredFields (popState s).gl = frameRestored f := by
  refine ⟨?_, ?_⟩ <;> (simp only [popState, h, restoreState_eq]; try (split <;> rfl))

/-- Helper: the frame a push creates captures exactly the pre-push global
fields. -/
theorem frameRestored_pushedFrame (withFramebuffer : Bool) (g : GLState) :
    frameRestored (pushedFrame withFramebuffer g) = restoredFields g := by
  cases withFramebuffer <;> rfl

/-- Helper: any number of nested balanced push/pop passes restores the nine
global fields and the whole stack, provided no push overflows. -/
theorem runNestedPasses_restores :
    ∀ (passes : List ((GLState → GLState) × Bool)) (s : RendererState),
      s.stateStorage.length + passes.length ≤ 25 →
      restoredFields (runNestedPasses passes s).gl = restoredFields s.gl
      ∧ (runNestedPasses passes s).stateStorage = s.stateStorage := by
  intro passes
  induction passes with
  | nil => intro s _; exact ⟨rfl, rfl⟩
  | cons p rest ih =>
      intro s h
      have hlen : ¬ s.stateStorage.length > 24 := by
        simp only [List.length_cons] at h
        omega
      have hstack := pushState_stack_of_le p.2 s hlen
      have hs2 : (applyGL p.1 (pushState p.2 s)).stateStorage
          = pushedFrame p.2 s.gl :: s.stateStorage := hstack
      have hih := ih (applyGL p.1 (pushState p.2 s)) (by
        rw [hs2]
        simp only [List.length_cons] at h ⊢
        omega)
      have htop : (runNestedPasses rest (applyGL p.1 (pushState p.2 s))).stateStorage
          = pushedFrame p.2 s.gl :: s.stateStorage := by
        rw [hih.2, hs2]
      have hpop := popState_cons _ _ _ htop
      refine ⟨?_, ?_⟩
      · show restoredFields (popState (runNestedPasses rest (applyGL p.1 (pushState p.2 s)))).gl
          = restoredFields s.gl
        rw [hpop.2, frameRestored_pushedFrame]
      · show (popState (runNestedPasses rest (applyGL p.1 (pushState p.2 s)))).stateStorage
          = s.stateStorage
        exact hpop.1

/-- Concrete GL state for the C4 counterexample and witness: unit 0 is
active and holds texture 5 on the 2D target; every other binding is 0. -/
def cxGL : GLState :=
  { viewport := (0, 0, 640, 480)
    drawFramebuffer := 0
    readFramebuffer := 0
    depthMask := true
    program := 7
    depthTest := true
    cullFace := true
    blend := false
    textureBindings := fun u t => if u = 0 ∧ t = TexTarget.t2D then 5 else 0
    activeTexture := 0
    nextFramebuffer := 0
    liveFramebuffers := [] }

/-- Concrete renderer state with an empty stack. -/
def cxRenderer : RendererState :=
  { gl := cxGL, stateStorage := [], logs := [] }

/-- Renderer state whose stack already holds 25 frames, for the overflow
branch. -/
def cxFullRenderer : RendererState :=
  { gl := cxGL
    stateStorage := List.replicate 25 (captureState cxGL)
    logs := [] }

/-- Nested work for the C4 counterexample: rebind GL_TEXTURE_2D on unit 0
(the unit active at push time), then leave unit 1 active. -/
def cxWork (g : GLState) : GLState :=
  glActiveTexture 1 (glBindTexture TexTarget.t2D 9 g)

/-- C4 counterexample: before the push, unit 0 (the active unit) holds
binding 5 on the 2D target and pushState captures exactly that value; the
nested work rebinds the 2D target on unit 0 to 9 and leaves unit 1 active;
popState then replays the captured glBindTexture calls into unit 1 before
restoring the active unit, so after the pop the reading that pushState
snapshotted - the 2D binding of unit 0 - is 9, not its pre-push value 5,
and the saved value 5 has been written into unit 1 instead. The claim that
each popState restores every captured field to its pre-push value is
therefore refuted. -/
theorem C4_counterexample_binding_wrong_unit :
    cxGL.textureBindings 0 TexTarget.t2D = 5
    ∧ (pushedFrame false cxGL).m_textureBindings TexTarget.t2D = 5
    ∧ (popState (applyGL cxWork (pushState false cxRenderer))).gl.textureBindings 0 TexTarget.t2D = 9
    ∧ (popState (applyGL cxWork (pushState false cxRenderer))).gl.textureBindings 1 TexTarget.t2D = 5
    ∧ (popState (applyGL cxWork (pushState false cxRenderer))).gl.activeTexture = 0 := by
  refine ⟨rfl, rfl, ?_, ?_, rfl⟩ <;> decide

/-- C4 (amended): for any sequence of nested pushState/popState pairs with
arbitrary GL work in between (no push overflowing the 24-frame cap), each
pop restores the viewport, the read and draw framebuffer bindings, the depth
write mask, the bound program, the depth-test / cull-face / blend toggles
and the active texture unit to their pre-push values and returns the stack
to its pre-push shape; the per-target texture bindings captured at push
(those of the then-active unit) are restored provided the nested work leaves
the active texture unit at its push-time value, because popState replays the
saved binds into the currently active unit before restoring glActiveTexture;
a pop whose matching push created a framebuffer deletes that framebuffer;
popState on an empty stack and pushState on a stack of more than 24 frames
log at critical severity and change nothing else (both are total no-ops, no
exception). -/
theorem C4_state_stack_restore :
    (∀ (passes : List ((GLState → GLState) × Bool)) (s : RendererState),
      s.stateStorage.length + passes.length ≤ 25 →
      restoredFields (runNestedPasses passes s).gl = restoredFields s.gl
      ∧ (runNestedPasses passes s).stateStorage = s.stateStorage)
    ∧ (∀ (s : RendererState) (work : GLState → GLState) (withFramebuffer : Bool),
      s.stateStorage.length ≤ 24 →
      (work (pushState withFramebuffer s).gl).activeTexture = s.gl.activeTexture →
      ∀ tgt : TexTarget,
        (popState (applyGL work (pushState withFramebuffer s))).gl.textureBindings
            s.gl.activeTexture tgt
          = s.gl.textureBindings s.gl.activeTexture tgt)
    ∧ (∀ (s : RendererState) (work : GLState → GLState),
      s.stateStorage.length ≤ 24 →
      (popState (applyGL work (pushState true s))).gl.liveFramebuffers
        = ((applyGL work (pushState true s)).gl.liveFramebuffers).filter
            (fun x => x ≠ (glGenFramebuffers s.gl).1))
    ∧ (∀ s : RendererState, s.stateStorage = [] →
      popState s = { s with logs := s.logs ++ [(LogChannel.LC_Critical, popEmptyMsg)] })
    ∧ (∀ (s : RendererState) (withFramebuffer : Bool), s.stateStorage.length > 24 →
      pushState withFramebuffer s
        = { s with logs := s.logs ++ [(LogChannel.LC_Critical, pushOverflowMsg)] }) := by
  refine ⟨runNestedPasses_restores, ?_, ?_, ?_, ?_⟩
  · intro s work withFramebuffer hlen hunit tgt
    have hne : ¬ s.stateStorage.length > 24 := by omega
    have hstack : (applyGL work (pushState withFramebuffer s)).stateStorage
        = pushedFrame withFramebuffer s.gl :: s.stateStorage :=
      pushState_stack_of_le withFramebuffer s hne
    have hframe : (pushedFrame withFramebuffer s.gl).m_textureBindings
        = fun t => s.gl.textureBindings s.gl.activeTexture t := by
      cases withFramebuffer <;> rfl
    have hact : (applyGL work (pushState withFramebuffer s)).gl.activeTexture
        = s.gl.activeTexture := hunit
    simp only [popState, hstack, restoreState_eq]
    split <;> simp [glDeleteFramebuffers, hframe, hact]
  · intro s work hlen
    have hne : ¬ s.stateStorage.length > 24 := by omega
    have hstack : (applyGL work (pushState true s)).stateStorage
        = pushedFrame true s.gl :: s.stateStorage := pushState_stack_of_le true s hne
    have hfb : (pushedFrame true s.gl).m_newFramebuffer = (glGenFramebuffers s.gl).1 := rfl
    simp only [popState, hstack, hfb, restoreState_eq]
    have hnz : (glGenFramebuffers s.gl).1 ≠ 0 := Nat.succ_ne_zero _
    simp [glDeleteFramebuffers, hnz]
  · intro s h
    simp [popState, h]
  · intro s withFramebuffer h
    simp [pushState, h]

/-- Witness for C4: one framebuffer-creating pass whose work rebinds a
texture and switches the active unit still gets its nine global fields and
stack restored; work that rebinds the 2D target but keeps unit 0 active gets
its captured binding restored; popping the empty stack and pushing onto the
25-frame stack only log. -/
theorem C4_state_stack_witness :
    (restoredFields (runNestedPasses [(cxWork, true)] cxRenderer).gl
        = restoredFields cxRenderer.gl
      ∧ (runNestedPasses [(cxWork, true)] cxRenderer).stateStorage
        = cxRenderer.stateStorage)
    ∧ (popState (applyGL (glBindTexture TexTarget.t2D 9) (pushState false cxRenderer))).gl.textureBindings
          cxGL.activeTexture TexTarget.t2D
        = cxGL.textureBindings cxGL.activeTexture TexTarget.t2D
    ∧ popState cxRenderer
        = { cxRenderer with logs := [(LogChannel.LC_Critical, popEmptyMsg)] }
    ∧ pushState false cxFullRenderer
        = { cxFullRenderer with logs := [(LogChannel.LC_Critical, pushOverflowMsg)] } := by
  refine ⟨?_, ?_, ?_, ?_⟩
  · exact C4_state_stack_restore.1 [(cxWork, true)] cxRenderer (by decide)
  · exact C4_state_stack_restore.2.1 cxRenderer (glBindTexture TexTarget.t2D 9) false
      (by decide) (by decide) TexTarget.t2D
  · exact C4_state_stack_restore.2.2.2.1 cxRenderer rfl
  · exact C4_state_stack_restore.2.2.2.2 cxFullRenderer false (by decide)

end A3D
